import Mathlib

/-!
Verification development for the go-oss/pipe repository.

Shallow embedding of:
- pkg/config/deployment.go (PipelineStage, genericPipelineStage, UnmarshalJSON,
  the stage option structures, DeploymentPipeline / Pipelineable), and
- pkg/app/piped/executor/cloudrun/cloudrun.go (Register, findCloudProvider,
  configureServiceManifest, apply).

Go values are embedded as Lean structures; Go JSON decoding is embedded over an
explicit inductive JSON value type, following the semantics of encoding/json for
the concrete struct types involved: a missing field leaves the zero value, a
JSON null is a no-op, a mismatched shape is a decode error, unknown object
fields are ignored. Functions that in Go report through an error value return
`Option String` (none = nil error). The executor functions additionally return
the ordered list of observable events (log lines, platform update/create calls)
they emit, so that claims about "no call to the external platform" are statable.

Definitions whose Go source is not under src/ (they live in sibling packages of
the same repository: pkg/model, pkg/app/piped/cloudprovider/cloudrun, other
files of pkg/config) are modelled from the spec and carry a doc comment saying
so.
-/

namespace Pipe

/-- A JSON document. Object fields are an ordered association list. -/
inductive Json where
  | null
  | bool (b : Bool)
  | num (n : Int)
  | str (s : String)
  | arr (elems : List Json)
  | obj (fields : List (String × Json))

/-- Field lookup in a decoded JSON object (first binding wins). -/
def Json.lookupField : List (String × Json) → String → Option Json
  | [], _ => none
  | (k, v) :: rest, key => if k = key then some v else Json.lookupField rest key

/-- encoding/json: unmarshal a JSON value into a Go string.
A null is a no-op (the zero value remains). -/
def decodeString : Json → Option String
  | .null => some ""
  | .str s => some s
  | _ => none

/-- encoding/json: unmarshal a JSON value into a Go int. -/
def decodeInt : Json → Option Int
  | .null => some 0
  | .num n => some n
  | _ => none

/-- encoding/json: unmarshal a JSON value into a Go slice, given the
element decoder. A null yields the nil (empty) slice. -/
def decodeList {α : Type} (dec : Json → Option α) : Json → Option (List α)
  | .null => some []
  | .arr xs => xs.mapM dec
  | _ => none

/-- encoding/json: unmarshal a JSON value into a Go map with string keys,
embedded as an association list. -/
def decodeStringMap : Json → Option (List (String × String))
  | .null => some []
  | .obj fields => fields.mapM (fun kv => (decodeString kv.2).map (fun v => (kv.1, v)))
  | _ => none

/-- Read one struct field out of a decoded JSON object: a missing key leaves
the zero value of the field, a present key runs the field decoder. -/
def getField {α : Type} (fields : List (String × Json)) (key : String)
    (dec : Json → Option α) (dflt : α) : Option α :=
  match Json.lookupField fields key with
  | none => some dflt
  | some v => dec v

namespace Config

/-- Modelled from the spec: `config.Duration` is declared in another file of
pkg/config, not under src/. Per section 3 and scenario A of the spec a duration
is decoded from a JSON string such as "10s"; it is embedded as a number of
seconds, and only the plain "\<n\>s" string form is modelled. -/
abbrev Duration := Int

/-- Digits followed by a final letter s, accumulating the number of seconds. -/
def parseSecondsChars : List Char → Nat → Option Nat
  | [c], acc => if c = 's' then some acc else none
  | c :: rest, acc =>
      if c.isDigit then parseSecondsChars rest (10 * acc + (c.toNat - 48)) else none
  | [], _ => none

/-- Modelled from the spec: decoding of `config.Duration` (source outside
src/). A string "\<n\>s" decodes to n seconds; null is a no-op; anything else
is a decode error. -/
def decodeDuration : Json → Option Duration
  | .null => some 0
  | .str s => (parseSecondsChars s.data 0).map (fun n => (n : Int))
  | _ => none

/-- `model.Stage` is a string type (pkg/model, outside src/). -/
abbrev Stage := String

/-- Modelled from the spec: the registered stage kind names (constants of
pkg/model, outside src/); section 6 of the spec gives WAIT, WAIT_APPROVAL,
ANALYSIS and the platform-specific rollout / clean / traffic-routing /
plan / apply kinds. -/
def StageWait : Stage := "WAIT"

def StageWaitApproval : Stage := "WAIT_APPROVAL"

def StageAnalysis : Stage := "ANALYSIS"

def StageK8sPrimaryRollout : Stage := "K8S_PRIMARY_ROLLOUT"

def StageK8sCanaryRollout : Stage := "K8S_CANARY_ROLLOUT"

def StageK8sCanaryClean : Stage := "K8S_CANARY_CLEAN"

def StageK8sBaselineRollout : Stage := "K8S_BASELINE_ROLLOUT"

def StageK8sBaselineClean : Stage := "K8S_BASELINE_CLEAN"

def StageK8sTrafficRouting : Stage := "K8S_TRAFFIC_ROUTING"

def StageTerraformPlan : Stage := "TERRAFORM_PLAN"

def StageTerraformApply : Stage := "TERRAFORM_APPLY"

/-- The eleven stage kinds handled by the switch of
PipelineStage.UnmarshalJSON (pkg/config/deployment.go). -/
def registeredStageNames : List Stage :=
  [StageWait, StageWaitApproval, StageAnalysis,
   StageK8sPrimaryRollout, StageK8sCanaryRollout, StageK8sCanaryClean,
   StageK8sBaselineRollout, StageK8sBaselineClean, StageK8sTrafficRouting,
   StageTerraformPlan, StageTerraformApply]

/-- WaitStageOptions (pkg/config/deployment.go). -/
structure WaitStageOptions where
  Duration : Duration := 0
deriving DecidableEq, Repr

def decodeWaitStageOptions : Json → Option WaitStageOptions
  | .null => some {}
  | .obj fields => (getField fields "duration" decodeDuration 0).map (fun d => { Duration := d })
  | _ => none

/-- WaitApprovalStageOptions (pkg/config/deployment.go). -/
structure WaitApprovalStageOptions where
  Approvers : List String := []
deriving DecidableEq, Repr

def decodeWaitApprovalStageOptions : Json → Option WaitApprovalStageOptions
  | .null => some {}
  | .obj fields =>
      (getField fields "approvers" (decodeList decodeString) []).map (fun a => { Approvers := a })
  | _ => none

/-- AnalysisTemplateRef (pkg/config/deployment.go); the Go map for Args is
embedded as an association list. -/
structure AnalysisTemplateRef where
  Name : String := ""
  Args : List (String × String) := []
deriving DecidableEq, Repr

def decodeAnalysisTemplateRef : Json → Option AnalysisTemplateRef
  | .null => some {}
  | .obj fields => do
      let name ← getField fields "name" decodeString ""
      let args ← getField fields "args" decodeStringMap []
      pure { Name := name, Args := args }
  | _ => none

/-- TemplatableAnalysisMetrics (pkg/config/deployment.go). The embedded
AnalysisMetrics struct is declared outside src/, so its promoted fields are
not modelled; the decoder ignores them like any unknown object field. -/
structure TemplatableAnalysisMetrics where
  Template : AnalysisTemplateRef := {}
deriving DecidableEq, Repr

def decodeTemplatableAnalysisMetrics : Json → Option TemplatableAnalysisMetrics
  | .null => some {}
  | .obj fields =>
      (getField fields "template" decodeAnalysisTemplateRef {}).map (fun t => { Template := t })
  | _ => none

/-- TemplatableAnalysisLog (pkg/config/deployment.go); the embedded
AnalysisLog struct is declared outside src/ and is not modelled. -/
structure TemplatableAnalysisLog where
  Template : AnalysisTemplateRef := {}
deriving DecidableEq, Repr

def decodeTemplatableAnalysisLog : Json → Option TemplatableAnalysisLog
  | .null => some {}
  | .obj fields =>
      (getField fields "template" decodeAnalysisTemplateRef {}).map (fun t => { Template := t })
  | _ => none

/-- TemplatableAnalysisHTTP (pkg/config/deployment.go); the embedded
AnalysisHTTP struct is declared outside src/ and is not modelled. -/
structure TemplatableAnalysisHTTP where
  Template : AnalysisTemplateRef := {}
deriving DecidableEq, Repr

def decodeTemplatableAnalysisHTTP : Json → Option TemplatableAnalysisHTTP
  | .null => some {}
  | .obj fields =>
      (getField fields "template" decodeAnalysisTemplateRef {}).map (fun t => { Template := t })
  | _ => none

/-- Modelled from the spec: AnalysisDynamic is declared outside src/; only its
Go struct decoding envelope is modelled (a JSON object or null decodes to the
zero value, anything else fails; its own fields are not interpreted). -/
structure AnalysisDynamic where
deriving DecidableEq, Repr

/-- Decoder for a Go struct whose fields are not modelled: a JSON object or a
null succeeds with the zero value, any other shape is a decode error. -/
def decodeOpaqueStruct {α : Type} (zero : α) : Json → Option α
  | .null => some zero
  | .obj _ => some zero
  | _ => none

/-- AnalysisStageOptions (pkg/config/deployment.go). -/
structure AnalysisStageOptions where
  Duration : Duration := 0
  RestartThreshold : Int := 0
  Metrics : List TemplatableAnalysisMetrics := []
  Logs : List TemplatableAnalysisLog := []
  Https : List TemplatableAnalysisHTTP := []
  Dynamic : AnalysisDynamic := {}
deriving DecidableEq, Repr

def decodeAnalysisStageOptions : Json → Option AnalysisStageOptions
  | .null => some {}
  | .obj fields => do
      let d ← getField fields "duration" decodeDuration 0
      let r ← getField fields "restartThreshold" decodeInt 0
      let m ← getField fields "metrics" (decodeList decodeTemplatableAnalysisMetrics) []
      let l ← getField fields "logs" (decodeList decodeTemplatableAnalysisLog) []
      let h ← getField fields "https" (decodeList decodeTemplatableAnalysisHTTP) []
      let dy ← getField fields "dynamic" (decodeOpaqueStruct ({} : AnalysisDynamic)) {}
      pure { Duration := d, RestartThreshold := r, Metrics := m, Logs := l, Https := h, Dynamic := dy }
  | _ => none

/-- Modelled from the spec: K8sPrimaryRolloutStageOptions is declared in
another file of pkg/config, outside src/; only its Go struct decoding envelope
is modelled (fields uninterpreted). -/
structure K8sPrimaryRolloutStageOptions where
deriving DecidableEq, Repr

/-- Modelled from the spec: K8sCanaryRolloutStageOptions is declared outside
src/; only its Go struct decoding envelope is modelled. -/
structure K8sCanaryRolloutStageOptions where
deriving DecidableEq, Repr

/-- Modelled from the spec: K8sCanaryCleanStageOptions is declared outside
src/; only its Go struct decoding envelope is modelled. -/
structure K8sCanaryCleanStageOptions where
deriving DecidableEq, Repr

/-- Modelled from the spec: K8sBaselineRolloutStageOptions is declared outside
src/; only its Go struct decoding envelope is modelled. -/
structure K8sBaselineRolloutStageOptions where
deriving DecidableEq, Repr

/-- Modelled from the spec: K8sBaselineCleanStageOptions is declared outside
src/; only its Go struct decoding envelope is modelled. -/
structure K8sBaselineCleanStageOptions where
deriving DecidableEq, Repr

/-- Modelled from the spec: K8sTrafficRoutingStageOptions is declared outside
src/; only its Go struct decoding envelope is modelled. -/
structure K8sTrafficRoutingStageOptions where
deriving DecidableEq, Repr

/-- Modelled from the spec: TerraformPlanStageOptions is declared outside
src/; only its Go struct decoding envelope is modelled. -/
structure TerraformPlanStageOptions where
deriving DecidableEq, Repr

/-- Modelled from the spec: TerraformApplyStageOptions is declared outside
src/; only its Go struct decoding envelope is modelled. -/
structure TerraformApplyStageOptions where
deriving DecidableEq, Repr

def decodeK8sPrimaryRolloutStageOptions : Json → Option K8sPrimaryRolloutStageOptions :=
  decodeOpaqueStruct {}

def decodeK8sCanaryRolloutStageOptions : Json → Option K8sCanaryRolloutStageOptions :=
  decodeOpaqueStruct {}

def decodeK8sCanaryCleanStageOptions : Json → Option K8sCanaryCleanStageOptions :=
  decodeOpaqueStruct {}

def decodeK8sBaselineRolloutStageOptions : Json → Option K8sBaselineRolloutStageOptions :=
  decodeOpaqueStruct {}

def decodeK8sBaselineCleanStageOptions : Json → Option K8sBaselineCleanStageOptions :=
  decodeOpaqueStruct {}

def decodeK8sTrafficRoutingStageOptions : Json → Option K8sTrafficRoutingStageOptions :=
  decodeOpaqueStruct {}

def decodeTerraformPlanStageOptions : Json → Option TerraformPlanStageOptions :=
  decodeOpaqueStruct {}

def decodeTerraformApplyStageOptions : Json → Option TerraformApplyStageOptions :=
  decodeOpaqueStruct {}

/-- PipelineStage (pkg/config/deployment.go): the common envelope fields plus
one nilable options pointer per stage kind, each embedded as an Option. -/
structure PipelineStage where
  Id : String := ""
  Name : Stage := ""
  Desc : String := ""
  Timeout : Duration := 0
  WaitStageOptions : Option WaitStageOptions := none
  WaitApprovalStageOptions : Option WaitApprovalStageOptions := none
  AnalysisStageOptions : Option AnalysisStageOptions := none
  K8sPrimaryRolloutStageOptions : Option K8sPrimaryRolloutStageOptions := none
  K8sCanaryRolloutStageOptions : Option K8sCanaryRolloutStageOptions := none
  K8sCanaryCleanStageOptions : Option K8sCanaryCleanStageOptions := none
  K8sBaselineRolloutStageOptions : Option K8sBaselineRolloutStageOptions := none
  K8sBaselineCleanStageOptions : Option K8sBaselineCleanStageOptions := none
  K8sTrafficRoutingStageOptions : Option K8sTrafficRoutingStageOptions := none
  TerraformPlanStageOptions : Option TerraformPlanStageOptions := none
  TerraformApplyStageOptions : Option TerraformApplyStageOptions := none
deriving DecidableEq, Repr

/-- genericPipelineStage (pkg/config/deployment.go): pass-1 envelope decode
target; With is the raw, not yet interpreted payload (none when the field is
absent, in which case the Go RawMessage has length 0). -/
structure genericPipelineStage where
  Id : String := ""
  Name : Stage := ""
  Desc : String := ""
  Timeout : Duration := 0
  With : Option Json := none

/-- Pass 1 of PipelineStage.UnmarshalJSON: json.Unmarshal of the document into
a genericPipelineStage. -/
def decodeGenericPipelineStage : Json → Option genericPipelineStage
  | .null => some {}
  | .obj fields => do
      let id ← getField fields "id" decodeString ""
      let name ← getField fields "name" decodeString ""
      let desc ← getField fields "desc" decodeString ""
      let timeout ← getField fields "timeout" decodeDuration 0
      pure { Id := id, Name := name, Desc := desc, Timeout := timeout,
             With := Json.lookupField fields "with" }
  | _ => none

/-- One branch of the pass-2 switch: when With is absent (length 0 in Go) the
options value stays at its zero value with no error; otherwise the payload is
decoded, a failure leaving the freshly allocated zero value in place and
reporting the unmarshal error. -/
def decodeWith {α : Type} (zero : α) (dec : Json → Option α) : Option Json → α × Option String
  | none => (zero, none)
  | some w =>
      match dec w with
      | some o => (o, none)
      | none => (zero, some "json: cannot unmarshal stage options")

/-- The envelope assignments and pass-2 switch of PipelineStage.UnmarshalJSON
(pkg/config/deployment.go), split out as the part run once pass 1 has
succeeded: copy the envelope fields onto the receiver, then dispatch on the
stage name. -/
def decodeStageOptions (s : PipelineStage) (gs : genericPipelineStage) :
    PipelineStage × Option String :=
  let s := { s with Id := gs.Id, Name := gs.Name, Desc := gs.Desc, Timeout := gs.Timeout }
  if s.Name = StageWait then
      let r := decodeWith {} decodeWaitStageOptions gs.With
      ({ s with WaitStageOptions := some r.1 }, r.2)
    else if s.Name = StageWaitApproval then
      let r := decodeWith {} decodeWaitApprovalStageOptions gs.With
      ({ s with WaitApprovalStageOptions := some r.1 }, r.2)
    else if s.Name = StageAnalysis then
      let r := decodeWith {} decodeAnalysisStageOptions gs.With
      ({ s with AnalysisStageOptions := some r.1 }, r.2)
    else if s.Name = StageK8sPrimaryRollout then
      let r := decodeWith {} (decodeK8sPrimaryRolloutStageOptions) gs.With
      ({ s with K8sPrimaryRolloutStageOptions := some r.1 }, r.2)
    else if s.Name = StageK8sCanaryRollout then
      let r := decodeWith {} (decodeK8sCanaryRolloutStageOptions) gs.With
      ({ s with K8sCanaryRolloutStageOptions := some r.1 }, r.2)
    else if s.Name = StageK8sCanaryClean then
      let r := decodeWith {} (decodeK8sCanaryCleanStageOptions) gs.With
      ({ s with K8sCanaryCleanStageOptions := some r.1 }, r.2)
    else if s.Name = StageK8sBaselineRollout then
      let r := decodeWith {} (decodeK8sBaselineRolloutStageOptions) gs.With
      ({ s with K8sBaselineRolloutStageOptions := some r.1 }, r.2)
    else if s.Name = StageK8sBaselineClean then
      let r := decodeWith {} (decodeK8sBaselineCleanStageOptions) gs.With
      ({ s with K8sBaselineCleanStageOptions := some r.1 }, r.2)
    else if s.Name = StageK8sTrafficRouting then
      let r := decodeWith {} (decodeK8sTrafficRoutingStageOptions) gs.With
      ({ s with K8sTrafficRoutingStageOptions := some r.1 }, r.2)
    else if s.Name = StageTerraformPlan then
      let r := decodeWith {} (decodeTerraformPlanStageOptions) gs.With
      ({ s with TerraformPlanStageOptions := some r.1 }, r.2)
    else if s.Name = StageTerraformApply then
      let r := decodeWith {} (decodeTerraformApplyStageOptions) gs.With
      ({ s with TerraformApplyStageOptions := some r.1 }, r.2)
    else
      (s, some ("unsupported stage name: " ++ s.Name))

/-- PipelineStage.UnmarshalJSON (pkg/config/deployment.go). Go mutates the
receiver and returns only the error; the embedding returns the final receiver
state together with the error, so the partial assignments made before a
failing branch remain observable exactly as in Go. Pass 1 is the unmarshal
into genericPipelineStage; pass 2 is decodeStageOptions. -/
def PipelineStage.UnmarshalJSON (s : PipelineStage) (data : Json) :
    PipelineStage × Option String :=
  match decodeGenericPipelineStage data with
  | none => (s, some "json: cannot unmarshal pipeline stage")
  | some gs => decodeStageOptions s gs

/-- The number of populated options pointers of a PipelineStage. -/
def PipelineStage.optionsCount (s : PipelineStage) : Nat :=
  (if s.WaitStageOptions.isSome then 1 else 0) +
  (if s.WaitApprovalStageOptions.isSome then 1 else 0) +
  (if s.AnalysisStageOptions.isSome then 1 else 0) +
  (if s.K8sPrimaryRolloutStageOptions.isSome then 1 else 0) +
  (if s.K8sCanaryRolloutStageOptions.isSome then 1 else 0) +
  (if s.K8sCanaryCleanStageOptions.isSome then 1 else 0) +
  (if s.K8sBaselineRolloutStageOptions.isSome then 1 else 0) +
  (if s.K8sBaselineCleanStageOptions.isSome then 1 else 0) +
  (if s.K8sTrafficRoutingStageOptions.isSome then 1 else 0) +
  (if s.TerraformPlanStageOptions.isSome then 1 else 0) +
  (if s.TerraformApplyStageOptions.isSome then 1 else 0)

/-- Whether the options pointer that belongs to the given stage kind is
populated. -/
def PipelineStage.optionsSetFor (s : PipelineStage) (name : Stage) : Bool :=
  if name = StageWait then s.WaitStageOptions.isSome
  else if name = StageWaitApproval then s.WaitApprovalStageOptions.isSome
  else if name = StageAnalysis then s.AnalysisStageOptions.isSome
  else if name = StageK8sPrimaryRollout then s.K8sPrimaryRolloutStageOptions.isSome
  else if name = StageK8sCanaryRollout then s.K8sCanaryRolloutStageOptions.isSome
  else if name = StageK8sCanaryClean then s.K8sCanaryCleanStageOptions.isSome
  else if name = StageK8sBaselineRollout then s.K8sBaselineRolloutStageOptions.isSome
  else if name = StageK8sBaselineClean then s.K8sBaselineCleanStageOptions.isSome
  else if name = StageK8sTrafficRouting then s.K8sTrafficRoutingStageOptions.isSome
  else if name = StageTerraformPlan then s.TerraformPlanStageOptions.isSome
  else if name = StageTerraformApply then s.TerraformApplyStageOptions.isSome
  else false

/-- Whether all eleven options pointers are nil. -/
def PipelineStage.allOptionsNil (s : PipelineStage) : Bool :=
  s.WaitStageOptions.isNone && s.WaitApprovalStageOptions.isNone &&
  s.AnalysisStageOptions.isNone && s.K8sPrimaryRolloutStageOptions.isNone &&
  s.K8sCanaryRolloutStageOptions.isNone && s.K8sCanaryCleanStageOptions.isNone &&
  s.K8sBaselineRolloutStageOptions.isNone && s.K8sBaselineCleanStageOptions.isNone &&
  s.K8sTrafficRoutingStageOptions.isNone && s.TerraformPlanStageOptions.isNone &&
  s.TerraformApplyStageOptions.isNone

/-- Set the options pointer belonging to the given stage kind to the zero
value of its type; identity for an unregistered kind. -/
def PipelineStage.setZeroOptions (s : PipelineStage) (name : Stage) : PipelineStage :=
  if name = StageWait then { s with WaitStageOptions := some {} }
  else if name = StageWaitApproval then { s with WaitApprovalStageOptions := some {} }
  else if name = StageAnalysis then { s with AnalysisStageOptions := some {} }
  else if name = StageK8sPrimaryRollout then { s with K8sPrimaryRolloutStageOptions := some {} }
  else if name = StageK8sCanaryRollout then { s with K8sCanaryRolloutStageOptions := some {} }
  else if name = StageK8sCanaryClean then { s with K8sCanaryCleanStageOptions := some {} }
  else if name = StageK8sBaselineRollout then { s with K8sBaselineRolloutStageOptions := some {} }
  else if name = StageK8sBaselineClean then { s with K8sBaselineCleanStageOptions := some {} }
  else if name = StageK8sTrafficRouting then { s with K8sTrafficRoutingStageOptions := some {} }
  else if name = StageTerraformPlan then { s with TerraformPlanStageOptions := some {} }
  else if name = StageTerraformApply then { s with TerraformApplyStageOptions := some {} }
  else s

/-- Whether the pass-2 payload decoder of the given stage kind accepts the
given payload; false for an unregistered kind. -/
def stageOptionsDecodeOk (name : Stage) (w : Json) : Bool :=
  if name = StageWait then (decodeWaitStageOptions w).isSome
  else if name = StageWaitApproval then (decodeWaitApprovalStageOptions w).isSome
  else if name = StageAnalysis then (decodeAnalysisStageOptions w).isSome
  else if name = StageK8sPrimaryRollout then
    (decodeK8sPrimaryRolloutStageOptions w).isSome
  else if name = StageK8sCanaryRollout then
    (decodeK8sCanaryRolloutStageOptions w).isSome
  else if name = StageK8sCanaryClean then
    (decodeK8sCanaryCleanStageOptions w).isSome
  else if name = StageK8sBaselineRollout then
    (decodeK8sBaselineRolloutStageOptions w).isSome
  else if name = StageK8sBaselineClean then
    (decodeK8sBaselineCleanStageOptions w).isSome
  else if name = StageK8sTrafficRouting then
    (decodeK8sTrafficRoutingStageOptions w).isSome
  else if name = StageTerraformPlan then
    (decodeTerraformPlanStageOptions w).isSome
  else if name = StageTerraformApply then
    (decodeTerraformApplyStageOptions w).isSome
  else false

/-- DeploymentPipeline (pkg/config/deployment.go). -/
structure DeploymentPipeline where
  Stages : List PipelineStage := []
deriving DecidableEq, Repr

/-- Modelled from the spec: the GetStage implementations of the Pipelineable
interface (pkg/config/deployment.go declares only the interface; the
implementing types are outside src/). Section 4.2 of the spec: stageAt(index)
returns a (PipelineStage, found) pair, not-found rather than an error for an
out-of-range index. Go returns the zero PipelineStage with found = false. -/
def DeploymentPipeline.GetStage (p : DeploymentPipeline) (index : Int) : PipelineStage × Bool :=
  if h : 0 ≤ index ∧ index.toNat < p.Stages.length then
    (p.Stages.get ⟨index.toNat, h.2⟩, true)
  else
    ({}, false)

end Config

namespace CloudRun

/-- An observable action of the cloudrun executor: a log line sent to the
LogPersister, or a call against the external platform (client.Update /
client.Create on a service name). -/
inductive Event where
  | logInfo (msg : String)
  | logError (msg : String)
  | platformUpdate (serviceName : String)
  | platformCreate (serviceName : String)
deriving DecidableEq, Repr

/-- Whether the event is a call against the external platform. -/
def Event.isPlatform : Event → Bool
  | .platformUpdate _ => true
  | .platformCreate _ => true
  | _ => false

/-- The number of create calls in an event trace. -/
def countCreate (events : List Event) : Nat :=
  events.countP (fun e =>
    match e with
    | .platformCreate _ => true
    | _ => false)

/-- RevisionTraffic (provider package): a revision name and its traffic
percentage. -/
structure RevisionTraffic where
  RevisionName : String := ""
  Percent : Int := 0
deriving DecidableEq, Repr

/-- Sum of the percentages of a traffic split. -/
def sumPercent (traffics : List RevisionTraffic) : Int :=
  (traffics.map (fun t => t.Percent)).sum

/-- Modelled from the spec: provider.ServiceManifest (package
pkg/app/piped/cloudprovider/cloudrun, outside src/). Per section 3 of the spec
it is the mutable in-memory representation of the service definition, carrying
a name, the revision to deploy and the traffic split; `malformed` abstracts
the manifests on which the set-revision mutation fails (the "malformed
manifest" derivation errors of section 7). -/
structure ServiceManifest where
  Name : String := ""
  revision : Option String := none
  traffic : List RevisionTraffic := []
  malformed : Bool := false
deriving DecidableEq, Repr

/-- Modelled from the spec: ServiceManifest.SetRevision (outside src/); sets
the computed revision name on the manifest (section 4.4 step 4), failing
exactly on a malformed manifest (section 7, derivation errors). -/
def ServiceManifest.SetRevision (sm : ServiceManifest) (revision : String) :
    Option ServiceManifest :=
  if sm.malformed then none else some { sm with revision := some revision }

/-- Modelled from the spec: ServiceManifest.UpdateTraffic (outside src/); sets
the desired traffic split, which must sum to 100 when fully specified
(section 3, RevisionTraffic; section 8, traffic split validity): any other sum
is rejected. -/
def ServiceManifest.UpdateTraffic (sm : ServiceManifest)
    (traffics : List RevisionTraffic) : Option ServiceManifest :=
  if sumPercent traffics = 100 then some { sm with traffic := traffics } else none

/-- configureServiceManifest (cloudrun.go): set the revision name, then the
traffic split, logging and reporting false on the first failure; returns the
success flag, the manifest as mutated so far, and the emitted events. -/
def configureServiceManifest (sm : ServiceManifest) (revision : String)
    (traffics : List RevisionTraffic) : Bool × ServiceManifest × List Event :=
  match sm.SetRevision revision with
  | none =>
      (false, sm, [.logError "Unable to set revision name to service manifest"])
  | some sm1 =>
      match sm1.UpdateTraffic traffics with
      | none =>
          (false, sm1,
           [.logError "Unable to configure traffic percentages to service manifest"])
      | some sm2 =>
          (true, sm2,
           .logInfo "Successfully configured revision and traffic percentages to the service manifest"
             :: traffics.map (fun t => .logInfo ("  " ++ t.RevisionName ++ ": " ++ toString t.Percent)))

/-- The outcome of the client.Update call for the manifest being applied:
nil error, the distinguished provider.ErrServiceNotFound, or any other
error. -/
inductive UpdateOutcome where
  | ok
  | notFound
  | failed (msg : String)
deriving DecidableEq, Repr

/-- The platform client obtained from provider.DefaultRegistry().Client,
abstracted by the outcomes its calls would produce for the manifest at hand:
the Update outcome, and whether Create would succeed. -/
structure Client where
  update : UpdateOutcome := .ok
  createOk : Bool := true
deriving DecidableEq, Repr

/-- apply (cloudrun.go): build the client (clientResult = none embeds a client
construction error), try Update; a nil error is success, a non-ErrServiceNotFound
error is failure, and ErrServiceNotFound falls back to exactly one Create whose
outcome decides the result. Returns the success flag and the emitted events. -/
def apply (clientResult : Option Client) (sm : ServiceManifest) : Bool × List Event :=
  let ev0 : List Event := [.logInfo "Start applying the service manifest"]
  match clientResult with
  | none => (false, ev0 ++ [.logError "Unable to create ClourRun client for the provider"])
  | some client =>
      match client.update with
      | .ok =>
          (true, ev0 ++ [.platformUpdate sm.Name,
                         .logInfo ("Successfully updated the service " ++ sm.Name)])
      | .failed msg =>
          (false, ev0 ++ [.platformUpdate sm.Name,
                          .logError ("Failed to update the service " ++ sm.Name ++ " (" ++ msg ++ ")")])
      | .notFound =>
          let ev1 := ev0 ++ [.platformUpdate sm.Name,
                             .logInfo ("Service " ++ sm.Name ++ " was not found, a new service will be created")]
          if client.createOk then
            (true, ev1 ++ [.platformCreate sm.Name,
                           .logInfo ("Successfully created the service " ++ sm.Name)])
          else
            (false, ev1 ++ [.platformCreate sm.Name,
                            .logError ("Failed to create the service " ++ sm.Name)])

/-- The cloud provider kind tag (pkg/model, outside src/). -/
abbrev CloudProviderKind := String

/-- Modelled from the spec: model.CloudProviderCloudRun (pkg/model, outside
src/), the platform-kind tag used for the configuration lookup. -/
def CloudProviderCloudRun : CloudProviderKind := "CLOUDRUN"

/-- Modelled from the spec: config.CloudProviderCloudRunConfig (outside src/),
an opaque platform-specific configuration block (section 6); only an identity
is modelled. -/
structure CloudProviderCloudRunConfig where
  project : String := ""
deriving DecidableEq, Repr

/-- One cloud provider entry of the piped configuration (outside src/): a
name, a platform-kind tag (the Go field is named Type, a reserved word here),
and the Cloud Run configuration block. -/
structure PipedCloudProvider where
  Name : String := ""
  ProviderType : CloudProviderKind := ""
  CloudRunConfig : Option CloudProviderCloudRunConfig := none
deriving DecidableEq, Repr

/-- The piped process configuration, restricted to its cloud provider list
(outside src/). -/
structure PipedConfig where
  CloudProviders : List PipedCloudProvider := []
deriving DecidableEq, Repr

/-- Modelled from the spec: PipedConfig.FindCloudProvider (pkg/config, outside
src/); the lookup is keyed by provider name plus the platform-kind tag
(section 6). -/
def PipedConfig.FindCloudProvider (c : PipedConfig) (name : String)
    (t : CloudProviderKind) : Option PipedCloudProvider :=
  c.CloudProviders.find? (fun p => p.Name == name && p.ProviderType == t)

/-- The application configuration fields used by findCloudProvider. -/
structure Application where
  CloudProvider : String := ""
deriving DecidableEq, Repr

/-- The executor input fields used by findCloudProvider (executor.Input,
outside src/): the application and the piped configuration. -/
structure Input where
  Application : Application := {}
  PipedConfig : PipedConfig := {}
deriving DecidableEq, Repr

/-- findCloudProvider (cloudrun.go): read the provider name from the
application configuration, failing on an empty name; look it up in the piped
configuration, failing when absent; on success return the name and the
CloudRunConfig of the entry. Returns ((name, config, found), events). -/
def findCloudProvider (i : Input) :
    (String × Option CloudProviderCloudRunConfig × Bool) × List Event :=
  let name := i.Application.CloudProvider
  if name = "" then
    ((name, none, false),
     [.logError "Missing the CloudProvider name in the application configuration"])
  else
    match i.PipedConfig.FindCloudProvider name CloudProviderCloudRun with
    | none =>
        ((name, none, false),
         [.logError ("The specified cloud provider " ++ name ++ " was not found in piped configuration")])
    | some cp => ((name, cp.CloudRunConfig, true), [])

/-- Modelled from the spec: the stage kind and application kind constants used
by Register (pkg/model, outside src/). -/
def StageCloudRunSync : Config.Stage := "CLOUDRUN_SYNC"

def StageCloudRunPromote : Config.Stage := "CLOUDRUN_PROMOTE"

def ApplicationKindCloudRun : String := "CLOUDRUN"

/-- The two executor factories built inside Register: the deploy factory shared
by the sync and promote stage kinds, and the rollback factory. -/
inductive FactoryId where
  | deploy
  | rollback
deriving DecidableEq, Repr

/-- A registration action performed by Register against the registerer. -/
inductive RegistrationEvent where
  | stageReg (kind : Config.Stage) (f : FactoryId)
  | rollbackReg (appKind : String) (f : FactoryId)
deriving DecidableEq, Repr

/-- The registerer interface (cloudrun.go), abstracted by the error values its
Register and RegisterRollback calls would return for each key. -/
structure Registerer where
  registerResult : Config.Stage → Option String := fun _ => none
  registerRollbackResult : String → Option String := fun _ => none

/-- Register (cloudrun.go): registers the shared deploy factory for the
CloudRunSync and CloudRunPromote stage kinds and the rollback factory for the
CLOUDRUN application kind; every returned error value is discarded and the
function returns nothing. The embedding returns the ordered registration
actions paired with the error value each call returned, which the Go code
drops on the floor. -/
def Register (r : Registerer) : List (RegistrationEvent × Option String) :=
  [(.stageReg StageCloudRunSync .deploy, r.registerResult StageCloudRunSync),
   (.stageReg StageCloudRunPromote .deploy, r.registerResult StageCloudRunPromote),
   (.rollbackReg ApplicationKindCloudRun .rollback,
    r.registerRollbackResult ApplicationKindCloudRun)]

end CloudRun

namespace Config

/-- Once pass 1 succeeds, UnmarshalJSON is the pass-2 dispatch. -/
theorem unmarshal_eq_pass2 (s : PipelineStage) (j : Json) (gs : genericPipelineStage)
    (hdec : decodeGenericPipelineStage j = some gs) :
    PipelineStage.UnmarshalJSON s j = decodeStageOptions s gs := by
  unfold PipelineStage.UnmarshalJSON
  rw [hdec]

/-- A pass-2 payload decode reports no error exactly when the payload is
absent or the decoder accepts it. -/
theorem decodeWith_snd_eq_none {α : Type} (zero : α) (dec : Json → Option α)
    (w : Option Json) :
    (decodeWith zero dec w).2 = none ↔
      (w = none ∨ ∃ v, w = some v ∧ (dec v).isSome = true) := by
  cases w with
  | none => simp [decodeWith]
  | some v => cases h : dec v <;> simp [decodeWith, h]

/-- C1 (amended): for every raw stage document whose kind tag is one of the
eleven registered stage kinds, UnmarshalJSON populates exactly one options
pointer — the one matching the kind — leaving all others nil, and it succeeds
exactly when the `with` payload is absent or decodes into that kind of options
type; a payload the options decoder rejects yields an error instead of
success. -/
theorem unmarshal_registered_exactly_one (j : Json) (gs : genericPipelineStage)
    (hdec : decodeGenericPipelineStage j = some gs)
    (hreg : gs.Name ∈ registeredStageNames) :
    (PipelineStage.UnmarshalJSON {} j).1.optionsCount = 1 ∧
    (PipelineStage.UnmarshalJSON {} j).1.optionsSetFor gs.Name = true ∧
    ((PipelineStage.UnmarshalJSON {} j).2 = none ↔
      (gs.With = none ∨ ∃ w, gs.With = some w ∧ stageOptionsDecodeOk gs.Name w = true)) := by
  rw [unmarshal_eq_pass2 _ _ _ hdec]
  obtain ⟨gid, gname, gdesc, gtime, gwith⟩ := gs
  simp only [registeredStageNames, StageWait, StageWaitApproval, StageAnalysis,
    StageK8sPrimaryRollout, StageK8sCanaryRollout, StageK8sCanaryClean,
    StageK8sBaselineRollout, StageK8sBaselineClean, StageK8sTrafficRouting,
    StageTerraformPlan, StageTerraformApply, List.mem_cons,
    List.not_mem_nil, or_false] at hreg
  rcases hreg with h|h|h|h|h|h|h|h|h|h|h <;> subst h <;>
    simp [decodeStageOptions, PipelineStage.optionsCount, PipelineStage.optionsSetFor,
      stageOptionsDecodeOk, decodeWith_snd_eq_none, StageWait, StageWaitApproval,
      StageAnalysis, StageK8sPrimaryRollout, StageK8sCanaryRollout, StageK8sCanaryClean,
      StageK8sBaselineRollout, StageK8sBaselineClean, StageK8sTrafficRouting,
      StageTerraformPlan, StageTerraformApply]

/-- C1 (counterexample to the claim as stated): a document with the registered
kind WAIT and a `with` payload that is not an object makes UnmarshalJSON
return an error, so decode does not succeed for every document with a
registered kind. -/
theorem unmarshal_registered_bad_payload_errors :
    StageWait ∈ registeredStageNames ∧
    (PipelineStage.UnmarshalJSON {}
      (.obj [("name", .str "WAIT"), ("with", .num 5)])).2 ≠ none := by
  decide

/-- C1 witness: a concrete ANALYSIS stage document decodes with exactly the
analysis options pointer populated. -/
theorem unmarshal_registered_exactly_one_witness :
    (PipelineStage.UnmarshalJSON {} (.obj [("name", .str "ANALYSIS")])).1.optionsCount = 1 ∧
    (PipelineStage.UnmarshalJSON {} (.obj [("name", .str "ANALYSIS")])).1.optionsSetFor
      "ANALYSIS" = true := by
  have h := unmarshal_registered_exactly_one (.obj [("name", .str "ANALYSIS")])
    { Name := "ANALYSIS" } rfl (by decide)
  exact ⟨h.1, h.2.1⟩

/-- C2: for every raw stage document whose decoded envelope carries a kind tag
outside the registered set, UnmarshalJSON returns the error
"unsupported stage name: " followed by the offending kind value. -/
theorem unmarshal_unsupported_kind_error (j : Json) (gs : genericPipelineStage)
    (hdec : decodeGenericPipelineStage j = some gs)
    (hreg : gs.Name ∉ registeredStageNames) :
    (PipelineStage.UnmarshalJSON {} j).2 =
      some ("unsupported stage name: " ++ gs.Name) := by
  rw [unmarshal_eq_pass2 _ _ _ hdec]
  obtain ⟨gid, gname, gdesc, gtime, gwith⟩ := gs
  simp only [registeredStageNames, StageWait, StageWaitApproval, StageAnalysis,
    StageK8sPrimaryRollout, StageK8sCanaryRollout, StageK8sCanaryClean,
    StageK8sBaselineRollout, StageK8sBaselineClean, StageK8sTrafficRouting,
    StageTerraformPlan, StageTerraformApply, List.mem_cons, List.not_mem_nil,
    or_false, not_or] at hreg
  obtain ⟨h1, h2, h3, h4, h5, h6, h7, h8, h9, h10, h11⟩ := hreg
  simp [decodeStageOptions, StageWait, StageWaitApproval, StageAnalysis,
    StageK8sPrimaryRollout, StageK8sCanaryRollout, StageK8sCanaryClean,
    StageK8sBaselineRollout, StageK8sBaselineClean, StageK8sTrafficRouting,
    StageTerraformPlan, StageTerraformApply,
    h1, h2, h3, h4, h5, h6, h7, h8, h9, h10, h11]

/-- C2 witness: a concrete document with the unregistered kind GIT_SYNC fails
with the unsupported stage name error naming GIT_SYNC. -/
theorem unmarshal_unsupported_kind_error_witness :
    (PipelineStage.UnmarshalJSON {} (.obj [("name", .str "GIT_SYNC")])).2 =
      some ("unsupported stage name: " ++ "GIT_SYNC") :=
  unmarshal_unsupported_kind_error (.obj [("name", .str "GIT_SYNC")])
    { Name := "GIT_SYNC" } rfl (by decide)

/-- C3: for every raw stage document with a registered kind whose `with`
payload is absent or the empty object, UnmarshalJSON returns no error and
the final state is the envelope assignments plus the matching options pointer
set to the zero value of its type (all other pointers nil). -/
theorem unmarshal_empty_payload_zero_options (j : Json) (gs : genericPipelineStage)
    (hdec : decodeGenericPipelineStage j = some gs)
    (hreg : gs.Name ∈ registeredStageNames)
    (hw : gs.With = none ∨ gs.With = some (.obj [])) :
    PipelineStage.UnmarshalJSON {} j =
      (PipelineStage.setZeroOptions
        { Id := gs.Id, Name := gs.Name, Desc := gs.Desc, Timeout := gs.Timeout } gs.Name,
       none) := by
  rw [unmarshal_eq_pass2 _ _ _ hdec]
  obtain ⟨gid, gname, gdesc, gtime, gwith⟩ := gs
  simp only [registeredStageNames, StageWait, StageWaitApproval, StageAnalysis,
    StageK8sPrimaryRollout, StageK8sCanaryRollout, StageK8sCanaryClean,
    StageK8sBaselineRollout, StageK8sBaselineClean, StageK8sTrafficRouting,
    StageTerraformPlan, StageTerraformApply, List.mem_cons,
    List.not_mem_nil, or_false] at hreg
  simp only [] at hw
  rcases hw with hw|hw <;> subst hw <;>
    rcases hreg with h|h|h|h|h|h|h|h|h|h|h <;> subst h <;>
      simp [decodeStageOptions, PipelineStage.setZeroOptions, decodeWith,
        decodeWaitStageOptions, decodeWaitApprovalStageOptions, decodeAnalysisStageOptions,
        decodeK8sPrimaryRolloutStageOptions, decodeK8sCanaryRolloutStageOptions,
        decodeK8sCanaryCleanStageOptions, decodeK8sBaselineRolloutStageOptions,
        decodeK8sBaselineCleanStageOptions, decodeK8sTrafficRoutingStageOptions,
        decodeTerraformPlanStageOptions, decodeTerraformApplyStageOptions,
        decodeOpaqueStruct, getField, Json.lookupField,
        StageWait, StageWaitApproval, StageAnalysis, StageK8sPrimaryRollout,
        StageK8sCanaryRollout, StageK8sCanaryClean, StageK8sBaselineRollout,
        StageK8sBaselineClean, StageK8sTrafficRouting, StageTerraformPlan,
        StageTerraformApply]

/-- C3 witness: a concrete WAIT stage document with no `with` payload decodes
without error to the zero WaitStageOptions. -/
theorem unmarshal_empty_payload_zero_options_witness :
    PipelineStage.UnmarshalJSON {} (.obj [("name", .str "WAIT")]) =
      (PipelineStage.setZeroOptions { Name := "WAIT" } "WAIT", none) :=
  unmarshal_empty_payload_zero_options (.obj [("name", .str "WAIT")])
    { Name := "WAIT" } rfl (by decide) (Or.inl rfl)

/-- C9: whenever the unsupported stage name error is returned, the envelope
fields Id, Name, Desc and Timeout of the receiver have already been assigned
from the input, and all eleven options pointers are still nil. -/
theorem unmarshal_error_partial_assignment (j : Json) (gs : genericPipelineStage)
    (hdec : decodeGenericPipelineStage j = some gs)
    (hreg : gs.Name ∉ registeredStageNames) :
    PipelineStage.UnmarshalJSON {} j =
      ({ Id := gs.Id, Name := gs.Name, Desc := gs.Desc, Timeout := gs.Timeout },
       some ("unsupported stage name: " ++ gs.Name)) ∧
    (PipelineStage.UnmarshalJSON {} j).1.allOptionsNil = true := by
  rw [unmarshal_eq_pass2 _ _ _ hdec]
  obtain ⟨gid, gname, gdesc, gtime, gwith⟩ := gs
  simp only [registeredStageNames, StageWait, StageWaitApproval, StageAnalysis,
    StageK8sPrimaryRollout, StageK8sCanaryRollout, StageK8sCanaryClean,
    StageK8sBaselineRollout, StageK8sBaselineClean, StageK8sTrafficRouting,
    StageTerraformPlan, StageTerraformApply, List.mem_cons, List.not_mem_nil,
    or_false, not_or] at hreg
  obtain ⟨h1, h2, h3, h4, h5, h6, h7, h8, h9, h10, h11⟩ := hreg
  simp [decodeStageOptions, PipelineStage.allOptionsNil, StageWait, StageWaitApproval,
    StageAnalysis, StageK8sPrimaryRollout, StageK8sCanaryRollout, StageK8sCanaryClean,
    StageK8sBaselineRollout, StageK8sBaselineClean, StageK8sTrafficRouting,
    StageTerraformPlan, StageTerraformApply,
    h1, h2, h3, h4, h5, h6, h7, h8, h9, h10, h11]

/-- C9 witness: a concrete document with an unregistered kind leaves Id and
Name assigned and every options pointer nil. -/
theorem unmarshal_error_partial_assignment_witness :
    PipelineStage.UnmarshalJSON {}
        (.obj [("id", .str "stage-1"), ("name", .str "NOT_A_STAGE")]) =
      ({ Id := "stage-1", Name := "NOT_A_STAGE" },
       some ("unsupported stage name: " ++ "NOT_A_STAGE")) ∧
    (PipelineStage.UnmarshalJSON {}
        (.obj [("id", .str "stage-1"), ("name", .str "NOT_A_STAGE")])).1.allOptionsNil = true :=
  unmarshal_error_partial_assignment
    (.obj [("id", .str "stage-1"), ("name", .str "NOT_A_STAGE")])
    { Id := "stage-1", Name := "NOT_A_STAGE" } rfl (by decide)

/-- C8: GetStage returns the stage at every in-range index with found = true,
and the zero stage with found = false for every out-of-range index, never an
error or a crash. -/
theorem get_stage_probes_bounds (p : DeploymentPipeline) (i : Int) :
    (∀ (h0 : 0 ≤ i) (h1 : i.toNat < p.Stages.length),
      p.GetStage i = (p.Stages.get ⟨i.toNat, h1⟩, true)) ∧
    ((i < 0 ∨ (p.Stages.length : Int) ≤ i) → p.GetStage i = ({}, false)) := by
  constructor
  · intro h0 h1
    unfold DeploymentPipeline.GetStage
    rw [dif_pos ⟨h0, h1⟩]
  · intro hout
    have hne : ¬(0 ≤ i ∧ i.toNat < p.Stages.length) := by
      rcases hout with h|h <;> (intro hc; omega)
    unfold DeploymentPipeline.GetStage
    rw [dif_neg hne]

/-- C8 witness: on a one-stage pipeline, index 0 is found and index 1 is
reported not found. -/
theorem get_stage_probes_bounds_witness :
    DeploymentPipeline.GetStage { Stages := [{}] } 0 = ({}, true) ∧
    DeploymentPipeline.GetStage { Stages := [{}] } 1 = ({}, false) :=
  ⟨(get_stage_probes_bounds { Stages := [{}] } 0).1 (by decide) (by decide),
   (get_stage_probes_bounds { Stages := [{}] } 1).2 (Or.inr (by decide))⟩

end Config

namespace CloudRun

/-- C4: when Update reports the distinguished not-found error, apply performs
exactly one Create and succeeds exactly when Create succeeds; on any other
Update error it fails without a Create; on Update success it succeeds without
a Create. -/
theorem apply_update_else_create (client : Client) (sm : ServiceManifest) :
    countCreate (apply (some client) sm).2 =
      (if client.update = .notFound then 1 else 0) ∧
    (apply (some client) sm).1 =
      (match client.update with
       | .ok => true
       | .notFound => client.createOk
       | .failed _ => false) := by
  obtain ⟨u, c⟩ := client
  cases u <;> cases c <;> exact ⟨rfl, rfl⟩

/-- C5: the update-traffic mutation accepts a traffic split exactly when its
percentages sum to 100, and configureServiceManifest reports success only for
such splits (for every well-formed manifest, exactly for such splits), so no
other traffic configuration is ever forwarded towards the platform. -/
theorem traffic_sum_validation (sm : ServiceManifest) (revision : String)
    (traffics : List RevisionTraffic) :
    ((sm.UpdateTraffic traffics).isSome ↔ sumPercent traffics = 100) ∧
    ((configureServiceManifest sm revision traffics).1 = true →
      sumPercent traffics = 100) ∧
    (sm.malformed = false →
      ((configureServiceManifest sm revision traffics).1 = true ↔
        sumPercent traffics = 100)) := by
  by_cases hs : sumPercent traffics = 100 <;>
    cases hm : sm.malformed <;>
      simp [ServiceManifest.UpdateTraffic, ServiceManifest.SetRevision,
        configureServiceManifest, hs, hm]

/-- C5 witness: a 100 percent split on a concrete manifest is accepted. -/
theorem traffic_sum_validation_witness :
    (configureServiceManifest { Name := "svc" } "svc-abc123"
      [{ RevisionName := "svc-abc123", Percent := 100 }]).1 = true := by
  have h := traffic_sum_validation { Name := "svc" } "svc-abc123"
    [{ RevisionName := "svc-abc123", Percent := 100 }]
  exact (h.2.2 rfl).mpr (by decide)

/-- C6: configureServiceManifest reports success exactly when the set-revision
mutation and then the update-traffic mutation both succeed, and it emits no
platform call in any case (the stage aborts before touching the external
platform on failure). -/
theorem configure_manifest_all_or_nothing (sm : ServiceManifest) (revision : String)
    (traffics : List RevisionTraffic) :
    ((configureServiceManifest sm revision traffics).1 =
      ((sm.SetRevision revision).bind (fun sm1 => sm1.UpdateTraffic traffics)).isSome) ∧
    (configureServiceManifest sm revision traffics).2.2.all
      (fun e => !e.isPlatform) = true := by
  by_cases hs : sumPercent traffics = 100 <;>
    cases hm : sm.malformed <;>
      simp [configureServiceManifest, ServiceManifest.SetRevision,
        ServiceManifest.UpdateTraffic, Event.isPlatform, hs, hm,
        List.all_eq_true, List.mem_map, Function.comp]

/-- C7: findCloudProvider performs no platform call; an empty provider name or
a missing configuration entry yields found = false, and a successful lookup
returns exactly the looked-up name and configuration. -/
theorem find_cloud_provider_fail_fast (i : Input) :
    ((findCloudProvider i).2.all (fun e => !e.isPlatform) = true) ∧
    (i.Application.CloudProvider = "" →
      (findCloudProvider i).1 = ("", none, false)) ∧
    (i.Application.CloudProvider ≠ "" →
      i.PipedConfig.FindCloudProvider i.Application.CloudProvider CloudProviderCloudRun = none →
      (findCloudProvider i).1 = (i.Application.CloudProvider, none, false)) ∧
    (∀ cp, i.Application.CloudProvider ≠ "" →
      i.PipedConfig.FindCloudProvider i.Application.CloudProvider CloudProviderCloudRun = some cp →
      (findCloudProvider i).1 = (i.Application.CloudProvider, cp.CloudRunConfig, true)) := by
  by_cases hname : i.Application.CloudProvider = ""
  · simp [findCloudProvider, hname, Event.isPlatform]
  · cases hcp : i.PipedConfig.FindCloudProvider i.Application.CloudProvider CloudProviderCloudRun <;>
      simp [findCloudProvider, hname, hcp, Event.isPlatform]

/-- C7 witness: with a piped configuration holding a matching Cloud Run
provider entry, the lookup returns that entry and its configuration. -/
theorem find_cloud_provider_fail_fast_witness :
    (findCloudProvider
      { Application := { CloudProvider := "gcp-cr" },
        PipedConfig := { CloudProviders :=
          [{ Name := "gcp-cr", ProviderType := "CLOUDRUN",
             CloudRunConfig := some { project := "proj-1" } }] } }).1 =
      ("gcp-cr", some { project := "proj-1" }, true) := by
  have h := find_cloud_provider_fail_fast
    { Application := { CloudProvider := "gcp-cr" },
      PipedConfig := { CloudProviders :=
        [{ Name := "gcp-cr", ProviderType := "CLOUDRUN",
           CloudRunConfig := some { project := "proj-1" } }] } }
  exact h.2.2.2
    { Name := "gcp-cr", ProviderType := "CLOUDRUN",
      CloudRunConfig := some { project := "proj-1" } }
    (by decide) (by decide)

/-- C10: whatever error values the registerer returns, Register performs the
same three registrations — the shared deploy factory for the sync and promote
stage kinds and the rollback factory for the Cloud Run application kind — and
surfaces no error (its result carries no error channel and is independent of
the returned error values, which are discarded). -/
theorem register_ignores_errors (r : Registerer) :
    (Register r).map Prod.fst =
      [.stageReg StageCloudRunSync .deploy,
       .stageReg StageCloudRunPromote .deploy,
       .rollbackReg ApplicationKindCloudRun .rollback] :=
  rfl

end CloudRun

end Pipe
